import Mathlib

/-!
Verification of the AiQo health-companion prototype (single-file React Native app).

The source's pure calculator functions are shallowly embedded here over `ℚ` and `ℤ`:
JavaScript numbers become rationals, and `Math.round` becomes Mathlib's `round`
(both compute `⌊x + 1/2⌋`, rounding half-way cases toward positive infinity).
Randomness in the meal generator (ingredient picks, identity tokens, preparation
times) is modelled by passing the random draws in explicitly as an oracle value,
so all theorems quantify over every possible sequence of draws.
-/

namespace AiQo

/-- Gender enum from the source (`type Gender = 'male' | 'female'`). -/
inductive Gender where
  | male
  | female
deriving DecidableEq, Repr

/-- Goal enum from the source (`type Goal = 'cut' | 'bulk' | 'maintain'`). -/
inductive Goal where
  | cut
  | bulk
  | maintain
deriving DecidableEq, Repr

/-- Activity-level enum from the source. -/
inductive ActivityLevel where
  | sedentary
  | light
  | moderate
  | active
  | athlete
deriving DecidableEq, Repr

/-- Dietary preference flags (`type DietaryPref`); each flag is optional in TS. -/
structure DietaryPref where
  halal : Option Bool
  vegan : Option Bool
  vegetarian : Option Bool
  glutenFree : Option Bool
  lactoseFree : Option Bool
deriving DecidableEq, Repr

/-- Meal-time preferences (the `mealTimes` record inside `OnboardingData`). -/
structure MealTimes where
  breakfast : String
  lunch : String
  dinner : String
deriving DecidableEq, Repr

/-- Sleep-window preference (the `sleepTime` record; `end` is renamed `sleepEnd`
because `end` is a reserved word in Lean). -/
structure SleepWindow where
  start : String
  sleepEnd : String
deriving DecidableEq, Repr

/-- The onboarding profile (`type OnboardingData`). -/
structure OnboardingData where
  gender : Gender
  age : ℚ
  height : ℚ
  weight : ℚ
  goal : Goal
  activity : ActivityLevel
  mealTimes : MealTimes
  sleepTime : SleepWindow
  diet : DietaryPref
deriving DecidableEq, Repr

/-- A generated meal (`type Meal`). `kcal` is an integer because every call site
passes a `Math.round` result. -/
structure Meal where
  id : String
  title : String
  kcal : ℤ
  protein : ℚ
  carbs : ℚ
  fat : ℚ
  timeMins : ℕ
  ingredients : List String
  steps : List String
  tags : List String
deriving DecidableEq, Repr

/-- The daily tracked record (`type DayData`). -/
structure DayData where
  date : String
  sleepPct : ℚ
  sittingHrs : ℚ
  steps : ℚ
  stepsGoal : ℚ
  waterMl : ℚ
  waterTarget : ℚ
  kcalConsumed : ℚ
  kcalTarget : ℚ
  meals : List Meal
  snacks : List Meal
  prayerDone : Bool
  workoutDone : Bool
deriving DecidableEq, Repr

/-- `clamp(n, min, max) = Math.max(min, Math.min(max, n))` from the source. -/
def clamp (n lo hi : ℚ) : ℚ :=
  max lo (min hi n)

/-- Mifflin-St Jeor basal metabolic rate (`calcBMR`). -/
def calcBMR (gender : Gender) (weightKg heightCm ageYears : ℚ) : ℚ :=
  if gender = Gender.male then
    10 * weightKg + 6.25 * heightCm - 5 * ageYears + 5
  else
    10 * weightKg + 6.25 * heightCm - 5 * ageYears - 161

/-- Activity multiplier lookup (`activityMultiplier`). -/
def activityMultiplier : ActivityLevel → ℚ
  | ActivityLevel.sedentary => 1.2
  | ActivityLevel.light => 1.375
  | ActivityLevel.moderate => 1.55
  | ActivityLevel.active => 1.725
  | ActivityLevel.athlete => 1.9

/-- Daily energy target (`tdeeFrom`): BMR times activity multiplier, goal-adjusted,
then rounded (the source rounds after applying the goal offset). -/
def tdeeFrom (onb : OnboardingData) : ℤ :=
  let bmr := calcBMR onb.gender onb.weight onb.height onb.age
  let tdee := bmr * activityMultiplier onb.activity
  if onb.goal = Goal.cut then round (tdee - 400)
  else if onb.goal = Goal.bulk then round (tdee + 300)
  else round tdee

/-- Hydration target in millilitres (`waterTargetMl`). -/
def waterTargetMl (onb : OnboardingData) : ℤ :=
  let base := onb.weight * 35
  let bump : ℚ :=
    match onb.activity with
    | ActivityLevel.sedentary => 0
    | ActivityLevel.light => 200
    | ActivityLevel.moderate => 400
    | ActivityLevel.active => 600
    | ActivityLevel.athlete => 800
  round (base + bump)

/-- Duration formatter (`formatTime`): one component under an hour, two otherwise. -/
def formatTime (mins : ℕ) : String :=
  if mins < 60 then toString mins ++ " د"
  else toString (mins / 60) ++ " س " ++ toString (mins % 60) ++ " د"

/-- One meal's worth of random draws: the identity token from `id()`, the pantry
picks made by `pick`, and the draw behind `Math.floor(Math.random() * 15)`. -/
structure RandMeal where
  ident : String
  prot : String
  carb : String
  fatPick : String
  vegs : List String
  timeRand : Fin 15
deriving DecidableEq, Repr

/-- `buildMeal(title, kcal, p, c, f)`, with the random draws passed explicitly. -/
def buildMeal (r : RandMeal) (title : String) (kcal : ℤ) (p c f : ℚ) : Meal :=
  { id := r.ident
    title := title
    kcal := kcal
    protein := p
    carbs := c
    fat := f
    timeMins := 15 + r.timeRand.val
    ingredients := [r.prot, r.carb, r.fatPick] ++ r.vegs
    steps :=
      ["حضّر المكوّنات: " ++ r.prot ++ " + " ++ r.carb ++ " + " ++ r.fatPick ++ " + "
          ++ String.intercalate "، " r.vegs,
        "اطبخ البروتين على نار متوسطة 8–10 د",
        "اسلق/سخّن الكارب حسب التعليمات",
        "رتّب الصحن وأضف الخضار والصلصة"]
    tags := ["halal"] }

/-- The meal/snack lists returned by `generateMealsForDay`. -/
structure MealPlan where
  meals : List Meal
  snacks : List Meal
deriving DecidableEq, Repr

/-- `generateMealsForDay(tdee, goal)`: 75% of the day's energy goes to three main
meals, the remainder to two snacks, each share rounded independently. The goal
argument is unused by the source's current policy. -/
def generateMealsForDay (r : Fin 5 → RandMeal) (tdee : ℤ) (goal : Goal) : MealPlan :=
  let dayKcal := tdee
  let mainKcal : ℤ := round ((dayKcal : ℚ) * 0.75)
  let snackKcal : ℤ := dayKcal - mainKcal
  let mealK : ℤ := round ((mainKcal : ℚ) / 3)
  let snackK : ℤ := round ((snackKcal : ℚ) / 2)
  { meals :=
      [buildMeal (r 0) "فطور متوازن" mealK 30 50 15,
        buildMeal (r 1) "غداء مُرضي" mealK 35 55 18,
        buildMeal (r 2) "عشاء خفيف" mealK 28 45 12]
    snacks :=
      [buildMeal (r 3) "سناك 1" snackK 12 15 8,
        buildMeal (r 4) "سناك 2" snackK 10 18 6] }

/-- Nudge selector (`pickNudge`): a first-match chain over the day's state. -/
def pickNudge (day : DayData) : String :=
  let leftKcal := day.kcalTarget - day.kcalConsumed
  let waterPct := day.waterMl / max 1 day.waterTarget
  if waterPct < 0.5 then "كأس مي الآن ينعش جسمك 💧"
  else if day.steps < day.stepsGoal / 2 then "امشِ 10 دقايق — مزاجك يشكرك 🚶‍♂️"
  else if leftKcal > 300 then "سناك بروتين خفيف قبل التمرين 💪"
  else if !day.prayerDone then "ركعتين خفيفة تنوّر يومك 🕊️"
  else if day.sittingHrs > 8 then "قف دقيقة وتمدد — ظهرِك أهم 🙆‍♂️"
  else "استمر… تقدمك واضح اليوم ✨"

/-- Composite wellness score (`haloScore`): the rounded mean of five clamped
sub-scores. -/
def haloScore (day : DayData) : ℤ :=
  let water := clamp (day.waterMl / max 1 day.waterTarget * 100) 0 100
  let sleep := clamp day.sleepPct 0 100
  let steps := clamp (day.steps / max 1 day.stepsGoal * 100) 0 100
  let faith : ℚ := if day.prayerDone then 100 else 30
  let sport : ℚ := if day.workoutDone then 100 else 40
  round ((water + sleep + steps + faith + sport) / 5)

/-- The completion gate computed by `completeDay`
(`day.waterMl >= day.waterTarget * 0.9 && day.steps >= day.stepsGoal * 0.9`). -/
def completeOk (day : DayData) : Bool :=
  decide (day.waterTarget * 0.9 ≤ day.waterMl) && decide (day.stepsGoal * 0.9 ≤ day.steps)

/-- The streak update performed by `completeDay`: the first component is the new
in-memory streak, the second is the value written to the streak storage key
(`none` when nothing is written). When the day is complete the new streak is
`currentStreak + 1` if yesterday's record exists and `1` otherwise, and that
value is persisted; otherwise the streak is untouched and nothing is written. -/
def updateStreak (currentStreak : ℕ) (dayComplete hadPriorDayRecord : Bool) :
    ℕ × Option ℕ :=
  if dayComplete then
    let next := if hadPriorDayRecord then currentStreak + 1 else 1
    (next, some next)
  else (currentStreak, none)

/-- The regeneration merge from `App.onRegenerate`:
`{ ...d, ...generateMealsForDay(tdeeFrom(onb), onb.goal) }` replaces exactly the
`meals` and `snacks` fields of the day. -/
def onRegenerate (r : Fin 5 → RandMeal) (onb : OnboardingData) (d : DayData) : DayData :=
  let g := generateMealsForDay r (tdeeFrom onb) onb.goal
  { d with meals := g.meals, snacks := g.snacks }

/-- The default onboarding profile seeded by `App` when no saved profile exists. -/
def defaultOnboarding : OnboardingData :=
  { gender := Gender.male
    age := 24
    height := 175
    weight := 90
    goal := Goal.cut
    activity := ActivityLevel.light
    mealTimes := { breakfast := "08:30", lunch := "14:00", dinner := "20:00" }
    sleepTime := { start := "00:00", sleepEnd := "07:00" }
    diet :=
      { halal := some true, vegan := none, vegetarian := none, glutenFree := none,
        lactoseFree := none } }

/-- Goal offset as the spec states it: cut subtracts 400, bulk adds 300,
maintain adds 0 (integer offset applied after the single rounding). -/
def goalAdjust : Goal → ℤ
  | Goal.cut => -400
  | Goal.bulk => 300
  | Goal.maintain => 0

/-- Day used to witness the frame part of the completion gate. -/
def sampleDayA : DayData :=
  { date := "2026-10-12"
    sleepPct := 70
    sittingHrs := 7
    steps := 2500
    stepsGoal := 9000
    waterMl := 500
    waterTarget := 3350
    kcalConsumed := 0
    kcalTarget := 2183
    meals := []
    snacks := []
    prayerDone := false
    workoutDone := false }

/-- Variant of `sampleDayA` differing only in calorie fields and flags. -/
def sampleDayB : DayData :=
  { sampleDayA with kcalConsumed := 1000, kcalTarget := 0, prayerDone := true }

/-- An otherwise perfect day whose water intake is below half its target. -/
def lowWaterDay : DayData :=
  { date := "2026-10-12"
    sleepPct := 100
    sittingHrs := 2
    steps := 9000
    stepsGoal := 9000
    waterMl := 200
    waterTarget := 2000
    kcalConsumed := 2183
    kcalTarget := 2183
    meals := []
    snacks := []
    prayerDone := true
    workoutDone := true }

/-- A day state whose water target is zero. -/
def zeroTargetDay : DayData :=
  { date := "2026-10-12"
    sleepPct := 70
    sittingHrs := 7
    steps := 2500
    stepsGoal := 9000
    waterMl := 0
    waterTarget := 0
    kcalConsumed := 0
    kcalTarget := 2183
    meals := []
    snacks := []
    prayerDone := false
    workoutDone := false }

/-- Fixed sequence of random draws used to witness the meal-plan theorem. -/
def sampleRand : RandMeal :=
  { ident := "a1b2c3"
    prot := "بيض"
    carb := "شوفان"
    fatPick := "طحينة"
    vegs := ["خس", "خيار"]
    timeRand := 0 }

/-- A day hitting every target: full water, full steps, perfect sleep, prayer and
workout done. -/
def perfectDay : DayData :=
  { date := "2026-10-12"
    sleepPct := 100
    sittingHrs := 2
    steps := 8000
    stepsGoal := 8000
    waterMl := 2000
    waterTarget := 2000
    kcalConsumed := 2000
    kcalTarget := 2000
    meals := []
    snacks := []
    prayerDone := true
    workoutDone := true }

/-- A day with mediocre values in all five scored dimensions. -/
def mediocreDay : DayData :=
  { date := "2026-10-12"
    sleepPct := 50
    sittingHrs := 10
    steps := 1000
    stepsGoal := 8000
    waterMl := 0
    waterTarget := 2000
    kcalConsumed := 0
    kcalTarget := 2000
    meals := []
    snacks := []
    prayerDone := false
    workoutDone := false }

end AiQo

/-- Evaluation rule for `round` on rationals, used to compute concrete values. -/
theorem roundEval (x : ℚ) (n : ℤ) (h₁ : (n : ℚ) ≤ x + 1 / 2) (h₂ : x + 1 / 2 < n + 1) :
    round x = n := by
  rw [round_eq]
  exact Int.floor_eq_iff.mpr ⟨h₁, h₂⟩

/-- Rounding is monotone on the rationals. -/
theorem round_mono_le {x y : ℚ} (h : x ≤ y) : round x ≤ round y := by
  rw [round_eq, round_eq]
  exact Int.floor_mono (by linarith)

/-- The lower clamp bound is respected. -/
theorem le_clamp (n lo hi : ℚ) : lo ≤ AiQo.clamp n lo hi :=
  le_max_left _ _

/-- The upper clamp bound is respected whenever the interval is nonempty. -/
theorem clamp_le (n lo hi : ℚ) (h : lo ≤ hi) : AiQo.clamp n lo hi ≤ hi :=
  max_le h (min_le_left _ _)

/-- Clamping is monotone in the clamped value. -/
theorem clamp_mono (lo hi : ℚ) {n n' : ℚ} (h : n ≤ n') :
    AiQo.clamp n lo hi ≤ AiQo.clamp n' lo hi :=
  max_le_max le_rfl (min_le_min le_rfl h)

namespace AiQo

/-- Concrete evaluation: the default profile's daily energy target is 2183 kcal. -/
theorem tdeeFrom_default : tdeeFrom defaultOnboarding = 2183 := by
  simp only [tdeeFrom, defaultOnboarding, calcBMR, activityMultiplier]
  norm_num
  exact roundEval _ 2183 (by norm_num) (by norm_num)

/-- C1: for every profile, `tdeeFrom` equals the Mifflin-St Jeor BMR times the
activity multiplier, rounded once, plus the integer goal offset (cut −400,
bulk +300, maintain +0); in particular the default profile (male, age 24,
height 175, weight 90, cut, light) yields `round (1878.75 * 1.375) - 400`. -/
theorem tdee_rounds_once_then_goal_offset :
    (∀ onb : OnboardingData,
        tdeeFrom onb =
          round (calcBMR onb.gender onb.weight onb.height onb.age *
              activityMultiplier onb.activity) + goalAdjust onb.goal) ∧
      tdeeFrom defaultOnboarding = round ((1878.75 : ℚ) * 1.375) - 400 := by
  constructor
  · rintro ⟨g, a, hh, w, gl, ac, mt, st, dt⟩
    cases gl with
    | cut =>
        show round (_ - (400 : ℚ)) = _ + (-400 : ℤ)
        rw [show (400 : ℚ) = ((400 : ℤ) : ℚ) by norm_num, round_sub_int]
        omega
    | bulk =>
        show round (_ + (300 : ℚ)) = _ + (300 : ℤ)
        rw [show (300 : ℚ) = ((300 : ℤ) : ℚ) by norm_num, round_add_int]
    | maintain =>
        show round _ = round _ + (0 : ℤ)
        omega
  · have h : round ((1878.75 : ℚ) * 1.375) = 2583 :=
      roundEval _ 2583 (by norm_num) (by norm_num)
    rw [tdeeFrom_default, h]
    norm_num

/-- C4: the completion gate of `completeDay` is exactly
`waterMl ≥ 0.9·waterTarget ∧ steps ≥ 0.9·stepsGoal`, and it depends on no other
field of the day. -/
theorem completeDay_gate :
    ∀ d : DayData,
      (completeOk d = true ↔
          0.9 * d.waterTarget ≤ d.waterMl ∧ 0.9 * d.stepsGoal ≤ d.steps) ∧
        ∀ d' : DayData, d.waterMl = d'.waterMl → d.waterTarget = d'.waterTarget →
          d.steps = d'.steps → d.stepsGoal = d'.stepsGoal →
            completeOk d = completeOk d' := by
  intro d
  constructor
  · simp only [completeOk, Bool.and_eq_true, decide_eq_true_eq]
    constructor
    · rintro ⟨h1, h2⟩
      exact ⟨by linarith, by linarith⟩
    · rintro ⟨h1, h2⟩
      exact ⟨by linarith, by linarith⟩
  · intro d' h1 h2 h3 h4
    simp only [completeOk, h1, h2, h3, h4]

/-- Witness for C4 at a concrete pair of days differing only outside the gate. -/
theorem completeDay_gate_witness : completeOk sampleDayA = completeOk sampleDayB :=
  (completeDay_gate sampleDayA).2 sampleDayB rfl rfl rfl rfl

/-- C5: if the day is incomplete the streak is untouched and nothing is written;
if complete with a prior-day record the streak becomes `s + 1`; if complete with
no prior-day record it becomes `1` regardless of `s`. -/
theorem updateStreak_cases :
    ∀ (s : ℕ) (c p : Bool),
      (c = false → updateStreak s c p = (s, none)) ∧
        (c = true → p = true → updateStreak s c p = (s + 1, some (s + 1))) ∧
        (c = true → p = false → updateStreak s c p = (1, some 1)) := by
  intro s c p
  cases c <;> cases p <;> simp [updateStreak]

/-- Witness for C5 at streak 5 and each verdict combination. -/
theorem updateStreak_cases_witness :
    updateStreak 5 false true = (5, none) ∧
      updateStreak 5 true true = (6, some 6) ∧
      updateStreak 5 true false = (1, some 1) :=
  ⟨(updateStreak_cases 5 false true).1 rfl,
    (updateStreak_cases 5 true true).2.1 rfl rfl,
    (updateStreak_cases 5 true false).2.2 rfl rfl⟩

/-- C9: the duration formatter produces the one-component minutes form below an
hour and the hours-plus-minutes form (hours = ⌊m/60⌋, minutes = m mod 60)
otherwise; `formatTime 45` is the one-component form and `formatTime 125`
carries the two-hour component. -/
theorem formatTime_shape :
    (∀ m : ℕ,
        formatTime m =
          if m < 60 then toString m ++ " د"
          else toString (m / 60) ++ " س " ++ toString (m % 60) ++ " د") ∧
      formatTime 45 = "45 د" ∧ formatTime 125 = "2 س 5 د" :=
  ⟨fun _ => rfl, by decide, by decide⟩

/-- C2: the wellness score is the rounded mean of the five clamped sub-scores
(water ratio, sleep percentage, steps ratio, faith, sport), a zero target being
replaced by 1 in the ratio denominators, and it always lies in `0..100`. -/
theorem haloScore_mean_of_clamped_subscores :
    ∀ d : DayData,
      haloScore d =
          round ((clamp (d.waterMl / max 1 d.waterTarget * 100) 0 100 +
              clamp d.sleepPct 0 100 +
              clamp (d.steps / max 1 d.stepsGoal * 100) 0 100 +
              (if d.prayerDone then (100 : ℚ) else 30) +
              (if d.workoutDone then (100 : ℚ) else 40)) / 5) ∧
        0 ≤ haloScore d ∧ haloScore d ≤ 100 := by
  intro d
  refine ⟨rfl, ?_, ?_⟩
  · have h1 := le_clamp (d.waterMl / max 1 d.waterTarget * 100) 0 100
    have h2 := le_clamp d.sleepPct 0 100
    have h3 := le_clamp (d.steps / max 1 d.stepsGoal * 100) 0 100
    have h4 : (0 : ℚ) ≤ if d.prayerDone then (100 : ℚ) else 30 := by
      cases d.prayerDone <;> norm_num
    have h5 : (0 : ℚ) ≤ if d.workoutDone then (100 : ℚ) else 40 := by
      cases d.workoutDone <;> norm_num
    have h0 : round ((0 : ℚ)) = 0 := by norm_num
    calc (0 : ℤ) = round ((0 : ℚ)) := h0.symm
      _ ≤ haloScore d := round_mono_le (by linarith)
  · have h1 := clamp_le (d.waterMl / max 1 d.waterTarget * 100) 0 100 (by norm_num)
    have h2 := clamp_le d.sleepPct 0 100 (by norm_num)
    have h3 := clamp_le (d.steps / max 1 d.stepsGoal * 100) 0 100 (by norm_num)
    have h4 : (if d.prayerDone then (100 : ℚ) else 30) ≤ 100 := by
      cases d.prayerDone <;> norm_num
    have h5 : (if d.workoutDone then (100 : ℚ) else 40) ≤ 100 := by
      cases d.workoutDone <;> norm_num
    have h100 : round ((100 : ℚ)) = 100 := by
      rw [show (100 : ℚ) = ((100 : ℤ) : ℚ) by norm_num, round_intCast]
    calc haloScore d ≤ round ((100 : ℚ)) := round_mono_le (by linarith)
      _ = 100 := h100

/-- C3: the nudge selector is the deterministic first-match chain
hydration → movement → protein snack → prayer → posture → generic, so a day
whose water ratio is below one half always gets the hydration nudge, and equal
day states get equal nudges. -/
theorem pickNudge_priority_chain :
    (∀ d : DayData,
        pickNudge d =
          if d.waterMl / max 1 d.waterTarget < 0.5 then "كأس مي الآن ينعش جسمك 💧"
          else if d.steps < d.stepsGoal / 2 then "امشِ 10 دقايق — مزاجك يشكرك 🚶‍♂️"
          else if d.kcalTarget - d.kcalConsumed > 300 then "سناك بروتين خفيف قبل التمرين 💪"
          else if !d.prayerDone then "ركعتين خفيفة تنوّر يومك 🕊️"
          else if d.sittingHrs > 8 then "قف دقيقة وتمدد — ظهرِك أهم 🙆‍♂️"
          else "استمر… تقدمك واضح اليوم ✨") ∧
      (∀ d₁ d₂ : DayData, d₁ = d₂ → pickNudge d₁ = pickNudge d₂) ∧
      ∀ d : DayData, 0 < d.waterTarget → 0 ≤ d.waterMl →
        d.waterMl / d.waterTarget < 0.5 → pickNudge d = "كأس مي الآن ينعش جسمك 💧" := by
  refine ⟨fun d => rfl, fun d₁ d₂ h => by rw [h], ?_⟩
  intro d hwt hw0 hlt
  have hcond : d.waterMl / max 1 d.waterTarget < 0.5 := by
    rcases le_or_lt 1 d.waterTarget with h1 | h1
    · rwa [max_eq_right h1]
    · rw [max_eq_left h1.le, div_one]
      rw [div_lt_iff₀ hwt] at hlt
      nlinarith
  simp only [pickNudge]
  rw [if_pos hcond]

/-- Witness for C3: the otherwise perfect low-water day gets the hydration nudge. -/
theorem pickNudge_priority_chain_witness :
    pickNudge lowWaterDay = "كأس مي الآن ينعش جسمك 💧" :=
  pickNudge_priority_chain.2.2 lowWaterDay (by norm_num [lowWaterDay])
    (by norm_num [lowWaterDay]) (by norm_num [lowWaterDay])

/-- C10: with a zero water target the selector divides by `max 1 waterTarget`,
so it is total: the day behaves exactly as if the target were 1, and the
hydration nudge fires exactly when `waterMl < 0.5`. -/
theorem pickNudge_total_at_zero_target :
    ∀ d : DayData, d.waterTarget = 0 →
      (pickNudge d = "كأس مي الآن ينعش جسمك 💧" ↔ d.waterMl < 0.5) ∧
        pickNudge d = pickNudge { d with waterTarget := 1 } := by
  intro d h
  have hmax : max (1 : ℚ) d.waterTarget = 1 := by
    rw [h]
    norm_num
  constructor
  · constructor
    · intro hres
      by_contra hw
      simp only [pickNudge, hmax, div_one] at hres
      rw [if_neg hw] at hres
      split_ifs at hres <;> exact absurd hres (by decide)
    · intro hw
      simp only [pickNudge, hmax, div_one]
      rw [if_pos hw]
  · simp only [pickNudge, hmax, div_one]
    norm_num

/-- Witness for C10 at a concrete day with water target zero. -/
theorem pickNudge_total_at_zero_target_witness :
    (pickNudge zeroTargetDay = "كأس مي الآن ينعش جسمك 💧" ↔ zeroTargetDay.waterMl < 0.5) ∧
      pickNudge zeroTargetDay = pickNudge { zeroTargetDay with waterTarget := 1 } :=
  pickNudge_total_at_zero_target zeroTargetDay rfl

/-- C8: regeneration always produces the 3-meals-plus-2-snacks structure and
replaces only the `meals` and `snacks` lists; every other field of the day
survives the merge unchanged. -/
theorem regenerate_replaces_only_meals :
    ∀ (r : Fin 5 → RandMeal) (onb : OnboardingData) (d : DayData),
      (onRegenerate r onb d).meals.length = 3 ∧
        (onRegenerate r onb d).snacks.length = 2 ∧
        (onRegenerate r onb d).date = d.date ∧
        (onRegenerate r onb d).sleepPct = d.sleepPct ∧
        (onRegenerate r onb d).sittingHrs = d.sittingHrs ∧
        (onRegenerate r onb d).steps = d.steps ∧
        (onRegenerate r onb d).stepsGoal = d.stepsGoal ∧
        (onRegenerate r onb d).waterMl = d.waterMl ∧
        (onRegenerate r onb d).waterTarget = d.waterTarget ∧
        (onRegenerate r onb d).kcalConsumed = d.kcalConsumed ∧
        (onRegenerate r onb d).kcalTarget = d.kcalTarget ∧
        (onRegenerate r onb d).prayerDone = d.prayerDone ∧
        (onRegenerate r onb d).workoutDone = d.workoutDone :=
  fun _ _ _ =>
    ⟨rfl, rfl, rfl, rfl, rfl, rfl, rfl, rfl, rfl, rfl, rfl, rfl, rfl⟩

/-- C6: for a positive energy target the generated plan has exactly 3 main meals
and 2 snacks, each main meal carrying `round (round (k·0.75) / 3)` kcal, each
snack `round ((k − round (k·0.75)) / 2)` kcal, and the five energies sum to
within 60 kcal of the target. -/
theorem generateMealsForDay_structure_and_kcal :
    ∀ (r : Fin 5 → RandMeal) (g : Goal) (k : ℤ), 0 < k →
      (generateMealsForDay r k g).meals.length = 3 ∧
        (generateMealsForDay r k g).snacks.length = 2 ∧
        (∀ m ∈ (generateMealsForDay r k g).meals,
            m.kcal = round ((round ((k : ℚ) * 0.75) : ℚ) / 3)) ∧
        (∀ m ∈ (generateMealsForDay r k g).snacks,
            m.kcal = round (((k - round ((k : ℚ) * 0.75) : ℤ) : ℚ) / 2)) ∧
        |(((generateMealsForDay r k g).meals ++
              (generateMealsForDay r k g).snacks).map Meal.kcal).sum - k| ≤ 60 := by
  intro r g k _
  refine ⟨rfl, rfl, ?_, ?_, ?_⟩
  · intro m hm
    simp only [generateMealsForDay, buildMeal, List.mem_cons, List.not_mem_nil,
      or_false] at hm
    rcases hm with h | h | h <;> rw [h]
  · intro m hm
    simp only [generateMealsForDay, buildMeal, List.mem_cons, List.not_mem_nil,
      or_false] at hm
    rcases hm with h | h <;> rw [h]
  · have hsum :
        (((generateMealsForDay r k g).meals ++
            (generateMealsForDay r k g).snacks).map Meal.kcal).sum =
          3 * round ((round ((k : ℚ) * 0.75) : ℚ) / 3) +
            2 * round (((k - round ((k : ℚ) * 0.75) : ℤ) : ℚ) / 2) := by
      simp only [generateMealsForDay, buildMeal, List.map_append, List.map_cons,
        List.map_nil, List.sum_append, List.sum_cons, List.sum_nil]
      push_cast
      ring
    rw [hsum]
    have h1 := abs_le.mp (abs_sub_round ((round ((k : ℚ) * 0.75) : ℚ) / 3))
    have h2 := abs_le.mp (abs_sub_round (((k - round ((k : ℚ) * 0.75) : ℤ) : ℚ) / 2))
    rw [abs_le]
    constructor
    · have hq : (-60 : ℚ) ≤
          ((3 * round ((round ((k : ℚ) * 0.75) : ℚ) / 3) +
              2 * round (((k - round ((k : ℚ) * 0.75) : ℤ) : ℚ) / 2) - k : ℤ) : ℚ) := by
        push_cast at h1 h2 ⊢
        linarith
      exact_mod_cast hq
    · have hq : ((3 * round ((round ((k : ℚ) * 0.75) : ℚ) / 3) +
            2 * round (((k - round ((k : ℚ) * 0.75) : ℤ) : ℚ) / 2) - k : ℤ) : ℚ) ≤ 60 := by
        push_cast at h1 h2 ⊢
        linarith
      exact_mod_cast hq

/-- Witness for C6 at the spec's example target of 2400 kcal. -/
theorem generateMealsForDay_structure_and_kcal_witness :
    (generateMealsForDay (fun _ => sampleRand) 2400 Goal.maintain).meals.length = 3 ∧
      (generateMealsForDay (fun _ => sampleRand) 2400 Goal.maintain).snacks.length = 2 ∧
      (∀ m ∈ (generateMealsForDay (fun _ => sampleRand) 2400 Goal.maintain).meals,
          m.kcal = round ((round ((2400 : ℚ) * 0.75) : ℚ) / 3)) ∧
      (∀ m ∈ (generateMealsForDay (fun _ => sampleRand) 2400 Goal.maintain).snacks,
          m.kcal = round (((2400 - round ((2400 : ℚ) * 0.75) : ℤ) : ℚ) / 2)) ∧
      |(((generateMealsForDay (fun _ => sampleRand) 2400 Goal.maintain).meals ++
            (generateMealsForDay (fun _ => sampleRand) 2400 Goal.maintain).snacks).map
          Meal.kcal).sum - 2400| ≤ 60 :=
  generateMealsForDay_structure_and_kcal (fun _ => sampleRand) Goal.maintain 2400
    (by norm_num)

/-- C7: the wellness score is monotonically non-decreasing in each input — more
water, more steps, better sleep, or a prayer/workout flag flipping to true never
lowers the score — and the perfect day scores strictly above the mediocre day. -/
theorem haloScore_monotone :
    (∀ (d : DayData) (w w' : ℚ), w ≤ w' →
        haloScore { d with waterMl := w } ≤ haloScore { d with waterMl := w' }) ∧
      (∀ (d : DayData) (s s' : ℚ), s ≤ s' →
        haloScore { d with steps := s } ≤ haloScore { d with steps := s' }) ∧
      (∀ (d : DayData) (p p' : ℚ), p ≤ p' →
        haloScore { d with sleepPct := p } ≤ haloScore { d with sleepPct := p' }) ∧
      (∀ d : DayData,
        haloScore { d with prayerDone := false } ≤ haloScore { d with prayerDone := true }) ∧
      (∀ d : DayData,
        haloScore { d with workoutDone := false } ≤ haloScore { d with workoutDone := true }) ∧
      haloScore mediocreDay < haloScore perfectDay := by
  refine ⟨?_, ?_, ?_, ?_, ?_, ?_⟩
  · intro d w w' h
    apply round_mono_le
    have hc : (0 : ℚ) ≤ max 1 d.waterTarget := le_trans zero_le_one (le_max_left 1 _)
    have hdiv := mul_le_mul_of_nonneg_right
      (div_le_div_of_nonneg_right h hc) (by norm_num : (0 : ℚ) ≤ 100)
    have := clamp_mono 0 100 hdiv
    linarith
  · intro d s s' h
    apply round_mono_le
    have hc : (0 : ℚ) ≤ max 1 d.stepsGoal := le_trans zero_le_one (le_max_left 1 _)
    have hdiv := mul_le_mul_of_nonneg_right
      (div_le_div_of_nonneg_right h hc) (by norm_num : (0 : ℚ) ≤ 100)
    have := clamp_mono 0 100 hdiv
    linarith
  · intro d p p' h
    apply round_mono_le
    have := clamp_mono 0 100 h
    linarith
  · intro d
    simp only [haloScore]
    apply round_mono_le
    simp only [Bool.false_eq_true, if_false, if_true]
    linarith
  · intro d
    simp only [haloScore]
    apply round_mono_le
    simp only [Bool.false_eq_true, if_false, if_true]
    linarith
  · have hm : haloScore mediocreDay = 27 := by
      have harg : (clamp (mediocreDay.waterMl / max 1 mediocreDay.waterTarget * 100) 0 100 +
            clamp mediocreDay.sleepPct 0 100 +
            clamp (mediocreDay.steps / max 1 mediocreDay.stepsGoal * 100) 0 100 +
            (if mediocreDay.prayerDone then (100 : ℚ) else 30) +
            (if mediocreDay.workoutDone then (100 : ℚ) else 40)) / 5 = 26.5 := by
        norm_num [mediocreDay, clamp]
      show round _ = (27 : ℤ)
      rw [harg]
      exact roundEval _ 27 (by norm_num) (by norm_num)
    have hp : haloScore perfectDay = 100 := by
      have harg : (clamp (perfectDay.waterMl / max 1 perfectDay.waterTarget * 100) 0 100 +
            clamp perfectDay.sleepPct 0 100 +
            clamp (perfectDay.steps / max 1 perfectDay.stepsGoal * 100) 0 100 +
            (if perfectDay.prayerDone then (100 : ℚ) else 30) +
            (if perfectDay.workoutDone then (100 : ℚ) else 40)) / 5 = 100 := by
        norm_num [perfectDay, clamp]
      show round _ = (100 : ℤ)
      rw [harg]
      exact roundEval _ 100 (by norm_num) (by norm_num)
    rw [hm, hp]
    norm_num

/-- Witness for C7: each monotonicity clause applied at the mediocre day. -/
theorem haloScore_monotone_witness :
    haloScore { mediocreDay with waterMl := 0 } ≤
        haloScore { mediocreDay with waterMl := 1000 } ∧
      haloScore { mediocreDay with steps := 1000 } ≤
        haloScore { mediocreDay with steps := 4000 } ∧
      haloScore { mediocreDay with sleepPct := 50 } ≤
        haloScore { mediocreDay with sleepPct := 90 } ∧
      haloScore { mediocreDay with prayerDone := false } ≤
        haloScore { mediocreDay with prayerDone := true } ∧
      haloScore { mediocreDay with workoutDone := false } ≤
        haloScore { mediocreDay with workoutDone := true } :=
  ⟨haloScore_monotone.1 mediocreDay 0 1000 (by norm_num),
    haloScore_monotone.2.1 mediocreDay 1000 4000 (by norm_num),
    haloScore_monotone.2.2.1 mediocreDay 50 90 (by norm_num),
    haloScore_monotone.2.2.2.1 mediocreDay,
    haloScore_monotone.2.2.2.2.1 mediocreDay⟩

end AiQo
